import Mathlib

/-
Shallow embedding of the metrics computation engine of the `lcs` repository
(src/etl/app/metrics): the RFM scorer, segment table, lifecycle flags,
prob-alive heuristics, product ABC classification, discount brackets and the
per-customer batch loop, together with theorems settling the specification
claims about them.

Conventions: Python floats are modelled as ℚ (all arithmetic in the embedded
fragments is exact on the inputs considered); dates are modelled as day
ordinals (ℤ), so date subtraction `.days` is integer subtraction.
-/

namespace Metrics

/-! ### RFM scoring — `MetricsCalculator._calc_score`

The Python method picks a threshold list by metric name and runs an
indexed loop mutating `score`, breaking on the first threshold not exceeded;
the result is clamped with `min(5, max(1, score))`. -/

/-- Threshold list chosen for `metric == "recency"` (days). -/
def recency_thresholds : List ℚ := [7, 30, 90, 180]

/-- Threshold list chosen for `metric == "frequency"` (orders per month). -/
def frequency_thresholds : List ℚ := [1/10, 1/4, 1/2, 1]

/-- Threshold list chosen for the monetary metric (currency units). -/
def monetary_thresholds : List ℚ := [1000, 5000, 15000, 50000]

/-- The `for i, threshold in enumerate(thresholds)` loop of `_calc_score`:
`i` is the current index, `n` the total threshold count, `score` the mutable
accumulator (initially 1).  On `value > threshold` the score is updated and the
loop continues; otherwise, in reverse mode the score becomes `n - i + 1` and
the loop breaks, and in forward mode the loop breaks keeping `score`. -/
def score_loop (value : ℚ) (rev : Bool) (n : ℤ) : ℤ → List ℚ → ℤ → ℤ
  | _, [], score => score
  | i, t :: ts, score =>
    if value > t then
      score_loop value rev n (i + 1) ts (if rev then n - i else i + 2)
    else if rev then n - i + 1 else score

/-- `MetricsCalculator._calc_score` for an explicit threshold list:
run the loop from index 0 with initial score 1, then clamp to [1, 5]. -/
def calc_score (value : ℚ) (thresholds : List ℚ) (rev : Bool) : ℤ :=
  min 5 (max 1 (score_loop value rev (thresholds.length : ℤ) 0 thresholds 1))

/-- Number of thresholds the value strictly exceeds. -/
def count_exceeded (value : ℚ) (l : List ℚ) : ℤ :=
  ((l.filter (fun t => decide (t < value))).length : ℤ)

lemma calc_score_forward_eq (a b c d v : ℚ) (hab : a < b) (hbc : b < c) (hcd : c < d) :
    calc_score v [a, b, c, d] false = 1 + count_exceeded v [a, b, c, d] := by
  by_cases h1 : a < v <;> by_cases h2 : b < v <;> by_cases h3 : c < v <;> by_cases h4 : d < v <;>
    simp [calc_score, score_loop, count_exceeded, h1, h2, h3, h4] <;> linarith

lemma calc_score_reverse_eq (a b c d v : ℚ) (hab : a < b) (hbc : b < c) (hcd : c < d) :
    calc_score v [a, b, c, d] true = 5 - count_exceeded v [a, b, c, d] := by
  by_cases h1 : a < v <;> by_cases h2 : b < v <;> by_cases h3 : c < v <;> by_cases h4 : d < v <;>
    simp [calc_score, score_loop, count_exceeded, h1, h2, h3, h4] <;> linarith

lemma count_exceeded_four (a b c d v : ℚ) :
    count_exceeded v [a, b, c, d] =
      (if a < v then 1 else 0) + (if b < v then 1 else 0) +
      (if c < v then 1 else 0) + (if d < v then 1 else 0) := by
  by_cases h1 : a < v <;> by_cases h2 : b < v <;> by_cases h3 : c < v <;> by_cases h4 : d < v <;>
    simp [count_exceeded, h1, h2, h3, h4]

lemma ite_lt_mono (a v₁ v₂ : ℚ) (h : v₁ ≤ v₂) :
    (if a < v₁ then (1 : ℤ) else 0) ≤ (if a < v₂ then 1 else 0) := by
  split_ifs with p q <;> linarith

lemma count_exceeded_four_mono (a b c d v₁ v₂ : ℚ) (h : v₁ ≤ v₂) :
    count_exceeded v₁ [a, b, c, d] ≤ count_exceeded v₂ [a, b, c, d] := by
  rw [count_exceeded_four, count_exceeded_four]
  exact add_le_add (add_le_add (add_le_add (ite_lt_mono a v₁ v₂ h)
    (ite_lt_mono b v₁ v₂ h)) (ite_lt_mono c v₁ v₂ h)) (ite_lt_mono d v₁ v₂ h)

lemma calc_score_bounds (v : ℚ) (l : List ℚ) (rev : Bool) :
    1 ≤ calc_score v l rev ∧ calc_score v l rev ≤ 5 := by
  unfold calc_score
  exact ⟨le_min (by norm_num) (le_max_left _ _), min_le_left _ _⟩

/-- C3: each RFM score is an integer in [1,5] from fixed absolute thresholds.
For Frequency (0.1, 0.25, 0.5, 1.0) and Monetary (1000, 5000, 15000, 50000) the
score is 1 plus the number of thresholds strictly exceeded, clamped to [1,5];
for Recency (7, 30, 90, 180) scoring is inverse: 5 minus the number of
thresholds strictly exceeded, i.e. ≤7 → 5, ≤30 → 4, ≤90 → 3, ≤180 → 2, >180 → 1. -/
theorem calc_score_threshold_spec (v : ℚ) :
    (1 ≤ calc_score v frequency_thresholds false ∧ calc_score v frequency_thresholds false ≤ 5) ∧
    (1 ≤ calc_score v monetary_thresholds false ∧ calc_score v monetary_thresholds false ≤ 5) ∧
    (1 ≤ calc_score v recency_thresholds true ∧ calc_score v recency_thresholds true ≤ 5) ∧
    calc_score v frequency_thresholds false
      = min 5 (max 1 (1 + count_exceeded v frequency_thresholds)) ∧
    calc_score v monetary_thresholds false
      = min 5 (max 1 (1 + count_exceeded v monetary_thresholds)) ∧
    calc_score v recency_thresholds true
      = min 5 (max 1 (5 - count_exceeded v recency_thresholds)) ∧
    (v ≤ 7 → calc_score v recency_thresholds true = 5) ∧
    (7 < v → v ≤ 30 → calc_score v recency_thresholds true = 4) ∧
    (30 < v → v ≤ 90 → calc_score v recency_thresholds true = 3) ∧
    (90 < v → v ≤ 180 → calc_score v recency_thresholds true = 2) ∧
    (180 < v → calc_score v recency_thresholds true = 1) := by
  have hf := calc_score_forward_eq (1/10) (1/4) (1/2) 1 v (by norm_num) (by norm_num) (by norm_num)
  have hm := calc_score_forward_eq 1000 5000 15000 50000 v (by norm_num) (by norm_num) (by norm_num)
  have hr := calc_score_reverse_eq 7 30 90 180 v (by norm_num) (by norm_num) (by norm_num)
  have hfc := count_exceeded_four (1/10) (1/4) (1/2) 1 v
  have hmc := count_exceeded_four 1000 5000 15000 50000 v
  have hrc := count_exceeded_four 7 30 90 180 v
  simp only [frequency_thresholds, monetary_thresholds, recency_thresholds] at *
  refine ⟨?_, ?_, ?_, ?_, ?_, ?_, ?_, ?_, ?_, ?_, ?_⟩
  · exact calc_score_bounds v _ false
  · exact calc_score_bounds v _ false
  · exact calc_score_bounds v _ true
  · rw [hf, hfc]; split_ifs <;> omega
  · rw [hm, hmc]; split_ifs <;> omega
  · rw [hr, hrc]; split_ifs <;> omega
  · intro h1; rw [hr, hrc]; split_ifs <;> first | omega | linarith
  · intro h1 h2; rw [hr, hrc]; split_ifs <;> first | omega | linarith
  · intro h1 h2; rw [hr, hrc]; split_ifs <;> first | omega | linarith
  · intro h1 h2; rw [hr, hrc]; split_ifs <;> first | omega | linarith
  · intro h1; rw [hr, hrc]; split_ifs <;> first | omega | linarith

/-- Witness for `calc_score_threshold_spec` at `v = 20` (a 20-day recency scores 4). -/
theorem calc_score_threshold_spec_witness :
    calc_score 20 recency_thresholds true = 4 :=
  (calc_score_threshold_spec 20).2.2.2.2.2.2.2.1 (by norm_num) (by norm_num)

/-- C5: the RFM scorer is monotone in each dimension: lower recency never
lowers the R score; higher frequency never lowers the F score; higher monetary
never lowers the M score. -/
theorem calc_score_monotone (v₁ v₂ : ℚ) (h : v₁ ≤ v₂) :
    calc_score v₂ recency_thresholds true ≤ calc_score v₁ recency_thresholds true ∧
    calc_score v₁ frequency_thresholds false ≤ calc_score v₂ frequency_thresholds false ∧
    calc_score v₁ monetary_thresholds false ≤ calc_score v₂ monetary_thresholds false := by
  have hr1 := calc_score_reverse_eq 7 30 90 180 v₁ (by norm_num) (by norm_num) (by norm_num)
  have hr2 := calc_score_reverse_eq 7 30 90 180 v₂ (by norm_num) (by norm_num) (by norm_num)
  have hf1 := calc_score_forward_eq (1/10) (1/4) (1/2) 1 v₁ (by norm_num) (by norm_num) (by norm_num)
  have hf2 := calc_score_forward_eq (1/10) (1/4) (1/2) 1 v₂ (by norm_num) (by norm_num) (by norm_num)
  have hm1 := calc_score_forward_eq 1000 5000 15000 50000 v₁ (by norm_num) (by norm_num) (by norm_num)
  have hm2 := calc_score_forward_eq 1000 5000 15000 50000 v₂ (by norm_num) (by norm_num) (by norm_num)
  have hcr := count_exceeded_four_mono 7 30 90 180 v₁ v₂ h
  have hcf := count_exceeded_four_mono (1/10) (1/4) (1/2) 1 v₁ v₂ h
  have hcm := count_exceeded_four_mono 1000 5000 15000 50000 v₁ v₂ h
  simp only [frequency_thresholds, monetary_thresholds, recency_thresholds] at *
  exact ⟨by omega, by omega, by omega⟩

/-- Witness for `calc_score_monotone` at recency values 10 ≤ 100. -/
theorem calc_score_monotone_witness :
    calc_score 100 recency_thresholds true ≤ calc_score 10 recency_thresholds true :=
  (calc_score_monotone 10 100 (by norm_num)).1

/-! ### RFM segment table — `MetricsCalculator.RFM_SEGMENTS` and
`MetricsCalculator._get_rfm_segment` -/

/-- The fixed segment table keyed by the exact (R, F, M) score triple. -/
def RFM_SEGMENTS : List ((ℤ × ℤ × ℤ) × String) := [
  ((5, 5, 5), "Чемпионы"),
  ((5, 5, 4), "Чемпионы"),
  ((5, 4, 5), "Чемпионы"),
  ((4, 5, 5), "Лояльные"),
  ((5, 4, 4), "Лояльные"),
  ((4, 5, 4), "Лояльные"),
  ((4, 4, 5), "Лояльные"),
  ((4, 4, 4), "Лояльные"),
  ((5, 3, 3), "Потенциальные лояльные"),
  ((4, 3, 3), "Потенциальные лояльные"),
  ((3, 3, 3), "Требуют внимания"),
  ((3, 3, 4), "Требуют внимания"),
  ((3, 4, 3), "Требуют внимания"),
  ((2, 3, 3), "Засыпающие"),
  ((2, 2, 3), "Засыпающие"),
  ((2, 3, 2), "Засыпающие"),
  ((3, 2, 2), "Засыпающие"),
  ((2, 2, 2), "В зоне риска"),
  ((1, 2, 2), "В зоне риска"),
  ((2, 1, 2), "В зоне риска"),
  ((2, 2, 1), "В зоне риска"),
  ((1, 1, 2), "Уходящие"),
  ((1, 2, 1), "Уходящие"),
  ((2, 1, 1), "Уходящие"),
  ((1, 1, 1), "Потерянные"),
  ((5, 1, 1), "Новые"),
  ((5, 1, 2), "Новые"),
  ((4, 1, 1), "Новые"),
  ((4, 1, 2), "Новые")]

/-- `_get_rfm_segment`: table lookup, then the coarse default rule keyed on
the R score (and F for the first branch). -/
def get_rfm_segment (r f m : ℤ) : String :=
  match RFM_SEGMENTS.lookup (r, f, m) with
  | some s => s
  | none =>
    if r ≥ 4 then
      if f ≥ 3 then "Лояльные" else "Новые"
    else if r ≥ 2 then "Засыпающие"
    else "Потерянные"

/-- The nine distinct segment names that occur in the table or the fallback. -/
def segment_names : List String :=
  ["Чемпионы", "Лояльные", "Потенциальные лояльные", "Требуют внимания",
   "Засыпающие", "В зоне риска", "Уходящие", "Потерянные", "Новые"]

/-- The coarse fallback rule exactly as the specification words it
(Loyal = "Лояльные", New = "Новые", Sleeping = "Засыпающие",
Lost = "Потерянные"): R≥4 & F≥3 → Loyal; R≥4 → New; R∈[2,3] → Sleeping;
otherwise Lost. -/
def spec_fallback_rule (r f : ℤ) : String :=
  if 4 ≤ r ∧ 3 ≤ f then "Лояльные"
  else if 4 ≤ r then "Новые"
  else if 2 ≤ r ∧ r ≤ 3 then "Засыпающие"
  else "Потерянные"

/-- C4: the table has 29 entries; every (R,F,M) triple in [1,5]³ maps to one
of the named segments (never an undefined/null segment), and a triple absent
from the table gets exactly the coarse fallback the spec states. -/
theorem rfm_segment_coverage (r f m : ℤ)
    (h1 : 1 ≤ r) (h2 : r ≤ 5) (h3 : 1 ≤ f) (h4 : f ≤ 5) (h5 : 1 ≤ m) (h6 : m ≤ 5) :
    RFM_SEGMENTS.length = 29 ∧
    get_rfm_segment r f m ∈ segment_names ∧
    ((RFM_SEGMENTS.lookup (r, f, m)).isNone = true →
      get_rfm_segment r f m = spec_fallback_rule r f) := by
  interval_cases r <;> interval_cases f <;> interval_cases m <;> decide

/-- Witness for `rfm_segment_coverage` at the triple (4, 5, 2): it is not in
the table and the fallback yields the Loyal segment. -/
theorem rfm_segment_coverage_witness :
    get_rfm_segment 4 5 2 ∈ segment_names ∧ get_rfm_segment 4 5 2 = "Лояльные" :=
  ⟨(rfm_segment_coverage 4 5 2 (by decide) (by decide) (by decide) (by decide)
      (by decide) (by decide)).2.1,
   ((rfm_segment_coverage 4 5 2 (by decide) (by decide) (by decide) (by decide)
      (by decide) (by decide)).2.2 (by decide)).trans (by decide)⟩

/-! ### `MetricsCalculator._calc_rfm_metrics`

A customer's transactions arrive as (date, amount) pairs (the SQL load orders
them by date; only min/max/sum/length are used here, so order is irrelevant).
The customer group is non-empty, modelled as head `t0` plus tail `rest`. -/

/-- The dictionary returned by `_calc_rfm_metrics`. -/
structure RFMResult where
  recency : ℤ
  frequency : ℚ
  monetary : ℚ
  rfm_score : ℤ
  rfm_segment : String

/-- `_calc_rfm_metrics`: recency = today − last order date; months =
max(1, (last − first)/30); frequency = order count / months; monetary = sum of
amounts; scores via `_calc_score`; rfm_score = 100·R + 10·F + M; segment via
`_get_rfm_segment`. -/
def calc_rfm_metrics (today : ℤ) (t0 : ℤ × ℚ) (rest : List (ℤ × ℚ)) : RFMResult :=
  let txs := t0 :: rest
  let last_order := (rest.map Prod.fst).foldl max t0.1
  let first_order := (rest.map Prod.fst).foldl min t0.1
  let recency := today - last_order
  let months : ℚ := max 1 (((last_order - first_order : ℤ) : ℚ) / 30)
  let frequency : ℚ := (txs.length : ℚ) / months
  let monetary : ℚ := (txs.map Prod.snd).sum
  let r_score := calc_score (recency : ℚ) recency_thresholds true
  let f_score := calc_score frequency frequency_thresholds false
  let m_score := calc_score monetary monetary_thresholds false
  { recency := recency
    frequency := frequency
    monetary := monetary
    rfm_score := r_score * 100 + f_score * 10 + m_score
    rfm_segment := get_rfm_segment r_score f_score m_score }

/-- The C1 end-to-end scenario: orders on 2024-01-01 (amount 1000) and
2024-02-01 (amount 1500), "today" = 2024-03-01.  Dates as day ordinals with
2024-01-01 ↦ 0: 2024-02-01 ↦ 31 (January has 31 days) and 2024-03-01 ↦ 60
(February 2024 has 29 days). -/
def scenario_rfm : RFMResult := calc_rfm_metrics 60 (0, 1000) [(31, 1500)]

/-- C1 counterexample: the claimed frequency ≈ 1/(59/30) ≈ 0.51 orders/month is
wrong.  The code divides the order count 2 by max(1, 31/30) months (31 days
between first and last order), giving 60/31 ≈ 1.94 — in particular greater
than 1, so nowhere near 0.51. -/
theorem scenario_rfm_frequency_counterexample :
    scenario_rfm.frequency = 60 / 31 ∧ 1 < scenario_rfm.frequency := by
  constructor <;> norm_num [scenario_rfm, calc_rfm_metrics]

/-- C1 amended: recency = 29 days, frequency = 2 / max(1, 31/30) = 60/31 ≈ 1.94
orders per month (not ≈ 0.51), monetary = 2500; the R score is 4 (so ≥ 4 as the
claim expects for a sub-30-day recency: rfm_score = 452 with hundreds digit 4),
and the segment is the fallback "Лояльные". -/
theorem scenario_rfm_amended :
    scenario_rfm.recency = 29 ∧
    scenario_rfm.frequency = 60 / 31 ∧
    scenario_rfm.monetary = 2500 ∧
    scenario_rfm.rfm_score = 452 ∧
    4 ≤ scenario_rfm.rfm_score / 100 ∧
    scenario_rfm.rfm_segment = "Лояльные" := by
  have hr : calc_score 29 recency_thresholds true = 4 := by
    simp only [recency_thresholds]
    rw [calc_score_reverse_eq 7 30 90 180 29 (by norm_num) (by norm_num) (by norm_num),
      count_exceeded_four]
    norm_num
  have hf : calc_score (60 / 31) frequency_thresholds false = 5 := by
    simp only [frequency_thresholds]
    rw [calc_score_forward_eq (1/10) (1/4) (1/2) 1 (60/31)
        (by norm_num) (by norm_num) (by norm_num), count_exceeded_four]
    norm_num
  have hm : calc_score 2500 monetary_thresholds false = 2 := by
    simp only [monetary_thresholds]
    rw [calc_score_forward_eq 1000 5000 15000 50000 2500
        (by norm_num) (by norm_num) (by norm_num), count_exceeded_four]
    norm_num
  have hseg : get_rfm_segment 4 5 2 = "Лояльные" := by decide
  refine ⟨?_, ?_, ?_, ?_, ?_, ?_⟩ <;>
    norm_num [scenario_rfm, calc_rfm_metrics, hr, hf, hm, hseg]

/-- C10: for every customer input the stored rfm_score is 100·R + 10·F + M with
each component in [1,5]; hence it lies in [111, 555] and R, F, M are uniquely
recoverable as its decimal digits. -/
theorem rfm_score_digit_invariant (today : ℤ) (t0 : ℤ × ℚ) (rest : List (ℤ × ℚ)) :
    ∃ R F M : ℤ,
      1 ≤ R ∧ R ≤ 5 ∧ 1 ≤ F ∧ F ≤ 5 ∧ 1 ≤ M ∧ M ≤ 5 ∧
      (calc_rfm_metrics today t0 rest).rfm_score = 100 * R + 10 * F + M ∧
      111 ≤ (calc_rfm_metrics today t0 rest).rfm_score ∧
      (calc_rfm_metrics today t0 rest).rfm_score ≤ 555 ∧
      R = (calc_rfm_metrics today t0 rest).rfm_score / 100 ∧
      F = (calc_rfm_metrics today t0 rest).rfm_score / 10 % 10 ∧
      M = (calc_rfm_metrics today t0 rest).rfm_score % 10 := by
  obtain ⟨hR1, hR2⟩ := calc_score_bounds
    (((today - (rest.map Prod.fst).foldl max t0.1 : ℤ) : ℚ)) recency_thresholds true
  obtain ⟨hF1, hF2⟩ := calc_score_bounds
    ((((t0 :: rest).length : ℚ)) /
      max 1 ((((rest.map Prod.fst).foldl max t0.1 - (rest.map Prod.fst).foldl min t0.1 : ℤ) : ℚ) / 30))
    frequency_thresholds false
  obtain ⟨hM1, hM2⟩ := calc_score_bounds (((t0 :: rest).map Prod.snd).sum
    ) monetary_thresholds false
  refine ⟨_, _, _, hR1, hR2, hF1, hF2, hM1, hM2, ?_, ?_, ?_, ?_, ?_, ?_⟩ <;>
    simp only [calc_rfm_metrics] <;> omega

/-! ### Lifecycle — `MetricsCalculator._calc_lifecycle_metrics`

Inputs `recency`, `avg_days_between` and `customer_age_days` come from the RFM
and temporal modules.  Configured thresholds are the defaults of the settings
object.  The `cohort` field (a "YYYY-MM" string of the first order date) and
the `int()` truncation of `sleep_days` need calendar formatting and are not
referenced by any claim; `sleep_days` keeps the exact rational value. -/

/-- `settings.new_customer_days` default. -/
def new_customer_days : ℚ := 30

/-- `settings.sleeping_threshold` default. -/
def sleeping_threshold : ℚ := 3 / 2

/-- `settings.churned_threshold` default. -/
def churned_threshold : ℚ := 3

/-- The dictionary returned by `_calc_lifecycle_metrics` (minus `cohort`). -/
structure LifecycleResult where
  lifecycle_stage : String
  sleep_days : ℚ
  sleep_factor : ℚ
  is_new : Bool
  is_active : Bool
  is_sleeping : Bool
  is_churned : Bool

/-- `_calc_lifecycle_metrics`: sleep_factor = recency / avg_days (denominator
30 when avg_days is not positive); the four flags and the stage label chosen by
the priority New > Active > Sleeping > Churned > Undetermined. -/
def calc_lifecycle_metrics (recency avg_days age_days : ℚ) : LifecycleResult :=
  let sleep_factor := if avg_days > 0 then recency / avg_days else recency / 30
  let is_new : Bool := decide (age_days ≤ new_customer_days)
  let is_churned : Bool := decide (churned_threshold ≤ sleep_factor)
  let is_sleeping : Bool := decide (sleeping_threshold ≤ sleep_factor) && !is_churned
  let is_active : Bool := !is_new && !is_sleeping && !is_churned
  let stage : String :=
    if is_new then "Новый"
    else if is_active then "Активный"
    else if is_sleeping then "Засыпающий"
    else if is_churned then "Потерянный"
    else "Неопределён"
  { lifecycle_stage := stage
    sleep_days := if avg_days < recency then recency - avg_days else 0
    sleep_factor := sleep_factor
    is_new := is_new
    is_active := is_active
    is_sleeping := is_sleeping
    is_churned := is_churned }

/-- Consecutive differences of a date list (`dates.diff().dropna()`). -/
def date_gaps : ℤ → List ℤ → List ℤ
  | _, [] => []
  | prev, d :: ds => (d - prev) :: date_gaps d ds

/-- The per-customer pipeline fragment feeding `_calc_lifecycle_metrics`:
from the (date-sorted) order dates, recency = today − last order,
age_days = today − first order, and avg_days_between = mean of consecutive
gaps (age_days when there is a single order), as the temporal module computes
them. -/
def customer_lifecycle (today d0 : ℤ) (rest : List ℤ) : LifecycleResult :=
  let last_order := rest.foldl max d0
  let first_order := rest.foldl min d0
  let recency : ℤ := today - last_order
  let age_days : ℤ := today - first_order
  let avg_days : ℚ :=
    match rest with
    | [] => (age_days : ℚ)
    | _ => ((date_gaps d0 rest).sum : ℚ) / ((date_gaps d0 rest).length : ℚ)
  calc_lifecycle_metrics (recency : ℚ) avg_days (age_days : ℚ)

/-- C2 counterexample: a perfectly valid input — orders on days 0 and 1, today
= day 9 (all dates before today, sorted) — makes BOTH is_new (age 9 ≤ 30) and
is_churned (sleep_factor = 8/1 ≥ 3) true, violating the claimed exclusivity. -/
theorem lifecycle_exclusivity_counterexample :
    (customer_lifecycle 9 0 [1]).is_new = true ∧
    (customer_lifecycle 9 0 [1]).is_churned = true ∧
    (0 : ℤ) ≤ 1 ∧ (1 : ℤ) ≤ 9 := by
  have h : customer_lifecycle 9 0 [1] = calc_lifecycle_metrics 8 1 9 := by
    unfold customer_lifecycle
    norm_num [date_gaps]
  refine ⟨?_, ?_, by norm_num, by norm_num⟩ <;> rw [h] <;>
    norm_num [calc_lifecycle_metrics, new_customer_days, churned_threshold,
      sleeping_threshold]

lemma lifecycle_flags_cases (recency avg_days age_days : ℚ) :
    ((calc_lifecycle_metrics recency avg_days age_days).is_new ||
     (calc_lifecycle_metrics recency avg_days age_days).is_active ||
     (calc_lifecycle_metrics recency avg_days age_days).is_sleeping ||
     (calc_lifecycle_metrics recency avg_days age_days).is_churned) = true ∧
    ¬((calc_lifecycle_metrics recency avg_days age_days).is_sleeping = true ∧
      (calc_lifecycle_metrics recency avg_days age_days).is_churned = true) ∧
    ((calc_lifecycle_metrics recency avg_days age_days).is_new = false →
      ((calc_lifecycle_metrics recency avg_days age_days).is_active = true ∧
        (calc_lifecycle_metrics recency avg_days age_days).is_sleeping = false ∧
        (calc_lifecycle_metrics recency avg_days age_days).is_churned = false) ∨
      ((calc_lifecycle_metrics recency avg_days age_days).is_active = false ∧
        (calc_lifecycle_metrics recency avg_days age_days).is_sleeping = true ∧
        (calc_lifecycle_metrics recency avg_days age_days).is_churned = false) ∨
      ((calc_lifecycle_metrics recency avg_days age_days).is_active = false ∧
        (calc_lifecycle_metrics recency avg_days age_days).is_sleeping = false ∧
        (calc_lifecycle_metrics recency avg_days age_days).is_churned = true)) ∧
    (calc_lifecycle_metrics recency avg_days age_days).lifecycle_stage ≠ "Неопределён" := by
  unfold calc_lifecycle_metrics
  by_cases h1 : age_days ≤ new_customer_days <;>
    by_cases h2 : churned_threshold ≤
      (if avg_days > 0 then recency / avg_days else recency / 30) <;>
    by_cases h3 : sleeping_threshold ≤
      (if avg_days > 0 then recency / avg_days else recency / 30) <;>
    simp [h1, h2, h3]

/-- C2 amended: for every valid customer input (non-empty sorted transaction
dates, none after today) AT LEAST one of the four flags is true, is_sleeping
and is_churned are never both true, and whenever is_new is false EXACTLY one of
the four flags is true; but is_new may hold together with is_sleeping or
is_churned (see the counterexample), and the Undetermined stage label is never
produced at all (the priority chain always resolves). -/
theorem lifecycle_flags_amended (today d0 : ℤ) (rest : List ℤ)
    (hsorted : List.Chain (· ≤ ·) d0 rest) (hvalid : ∀ d ∈ d0 :: rest, d ≤ today) :
    ((customer_lifecycle today d0 rest).is_new ||
     (customer_lifecycle today d0 rest).is_active ||
     (customer_lifecycle today d0 rest).is_sleeping ||
     (customer_lifecycle today d0 rest).is_churned) = true ∧
    ¬((customer_lifecycle today d0 rest).is_sleeping = true ∧
      (customer_lifecycle today d0 rest).is_churned = true) ∧
    ((customer_lifecycle today d0 rest).is_new = false →
      ((customer_lifecycle today d0 rest).is_active = true ∧
        (customer_lifecycle today d0 rest).is_sleeping = false ∧
        (customer_lifecycle today d0 rest).is_churned = false) ∨
      ((customer_lifecycle today d0 rest).is_active = false ∧
        (customer_lifecycle today d0 rest).is_sleeping = true ∧
        (customer_lifecycle today d0 rest).is_churned = false) ∨
      ((customer_lifecycle today d0 rest).is_active = false ∧
        (customer_lifecycle today d0 rest).is_sleeping = false ∧
        (customer_lifecycle today d0 rest).is_churned = true)) ∧
    (customer_lifecycle today d0 rest).lifecycle_stage ≠ "Неопределён" := by
  unfold customer_lifecycle
  exact lifecycle_flags_cases _ _ _

/-- Witness for `lifecycle_flags_amended`: orders on days 0 and 50, today =
day 100 (sorted, valid). -/
theorem lifecycle_flags_amended_witness :
    ((customer_lifecycle 100 0 [50]).is_new ||
     (customer_lifecycle 100 0 [50]).is_active ||
     (customer_lifecycle 100 0 [50]).is_sleeping ||
     (customer_lifecycle 100 0 [50]).is_churned) = true ∧
    (customer_lifecycle 100 0 [50]).lifecycle_stage ≠ "Неопределён" :=
  ⟨(lifecycle_flags_amended 100 0 [50]
      (List.Chain.cons (by norm_num) List.Chain.nil) (by decide)).1,
   (lifecycle_flags_amended 100 0 [50]
      (List.Chain.cons (by norm_num) List.Chain.nil) (by decide)).2.2.2⟩

/-! ### Probability-alive heuristics — `_calc_value_metrics` line 395 and
`_calc_predictive_metrics` line 482 -/

/-- The value module's expression: `prob_alive = 1 - min(1, sleep_factor / 3)`. -/
def value_prob_alive (sleep_factor : ℚ) : ℚ :=
  1 - min 1 (sleep_factor / 3)

/-- The predictive module's expression:
`prob_alive = max(0, 1 - min(1, sleep_factor / 3))`. -/
def predictive_prob_alive (sleep_factor : ℚ) : ℚ :=
  max 0 (1 - min 1 (sleep_factor / 3))

/-- C6: the two independently-coded prob-alive heuristics agree on every
sleep_factor: the inner `min(1, ·)` already caps the subtrahend at 1, so
`1 - min(1, sleep_factor/3)` is never negative and the outer `max(0, ·)` of the
predictive module is the identity. -/
theorem prob_alive_heuristics_agree (sleep_factor : ℚ) :
    value_prob_alive sleep_factor = predictive_prob_alive sleep_factor := by
  unfold value_prob_alive predictive_prob_alive
  rcases le_total (sleep_factor / 3) 1 with h | h
  · rw [min_eq_right h, max_eq_right (by linarith)]
  · rw [min_eq_left h]
    norm_num

/-! ### Per-customer batch — `MetricsCalculator.calculate_all`

Each grouped customer is a pair of its id and the outcome of
`_calculate_customer_metrics` + `_save_metrics`: a raised exception is
`Except.error`.  A falsy (empty) customer id is skipped by the
`if not customer_id: continue` guard.  The Python `no_data` dictionary carries
only status and a zero customer count; the remaining fields default to 0. -/

/-- The summary dictionary returned by `calculate_all`. -/
structure BatchSummary where
  status : String
  customers : Nat
  errors : Nat
  duration_seconds : ℚ

/-- Whether a computation outcome is a success (no exception). -/
def calc_ok {α : Type} : Except String α → Bool
  | Except.ok _ => true
  | Except.error _ => false

/-- The `for customer_id in customer_ids` loop: skip falsy ids, count a
success (`calculated += 1`) or a caught exception (`errors += 1`) and keep
going — the accumulated pair is (calculated, errors). -/
def batch_loop {α : Type} (l : List (String × Except String α)) : Nat × Nat :=
  l.foldl
    (fun acc x =>
      if x.1 = "" then acc
      else match x.2 with
        | Except.ok _ => (acc.1 + 1, acc.2)
        | Except.error _ => (acc.1, acc.2 + 1))
    (0, 0)

/-- `calculate_all`: `no_data` on an empty fact set, else run the loop over
every customer and report status, successes, errors and duration. -/
def calculate_all {α : Type} (l : List (String × Except String α))
    (duration : ℚ) : BatchSummary :=
  if l.isEmpty then
    { status := "no_data", customers := 0, errors := 0, duration_seconds := 0 }
  else
    { status := "success"
      customers := (batch_loop l).1
      errors := (batch_loop l).2
      duration_seconds := duration }

lemma batch_loop_acc {α : Type} (l : List (String × Except String α)) (c e : Nat) :
    l.foldl
      (fun acc x =>
        if x.1 = "" then acc
        else match x.2 with
          | Except.ok _ => (acc.1 + 1, acc.2)
          | Except.error _ => (acc.1, acc.2 + 1))
      (c, e)
    = (c + (l.filter (fun x => !(x.1 == "") && calc_ok x.2)).length,
       e + (l.filter (fun x => !(x.1 == "") && !calc_ok x.2)).length) := by
  induction l generalizing c e with
  | nil => simp
  | cons a t ih =>
    by_cases ha : a.1 = ""
    · simp [List.foldl_cons, List.filter_cons, ha, ih]
    · cases hr : a.2 with
      | ok v => simp +arith [List.foldl_cons, List.filter_cons, ha, hr, calc_ok, ih]
      | error s => simp +arith [List.foldl_cons, List.filter_cons, ha, hr, calc_ok, ih]

lemma batch_loop_spec {α : Type} (l : List (String × Except String α)) :
    batch_loop l
      = ((l.filter (fun x => !(x.1 == "") && calc_ok x.2)).length,
         (l.filter (fun x => !(x.1 == "") && !calc_ok x.2)).length) := by
  simpa [batch_loop] using batch_loop_acc l 0 0

lemma filter_guest_split {α : Type} (l : List (String × Except String α)) :
    (l.filter (fun x => !(x.1 == "") && calc_ok x.2)).length +
      (l.filter (fun x => !(x.1 == "") && !calc_ok x.2)).length
      = (l.filter (fun x => !(x.1 == ""))).length := by
  induction l with
  | nil => simp
  | cons a t ih =>
    by_cases ha : a.1 = "" <;> cases hok : calc_ok a.2 <;>
      simp [List.filter_cons, ha, hok] <;> omega

/-- C8: on a non-empty fact set the batch never aborts: every customer in the
list is accounted for — the summary reports status "success", the number of
customers that succeeded, an error count equal to the number of (non-guest)
customers whose computation failed, and the duration; successes and failures
together exhaust the non-guest customers. -/
theorem calculate_all_partial_failure {α : Type} (l : List (String × Except String α))
    (duration : ℚ) (hne : l ≠ []) :
    (calculate_all l duration).status = "success" ∧
    (calculate_all l duration).customers
      = (l.filter (fun x => !(x.1 == "") && calc_ok x.2)).length ∧
    (calculate_all l duration).errors
      = (l.filter (fun x => !(x.1 == "") && !calc_ok x.2)).length ∧
    (calculate_all l duration).customers + (calculate_all l duration).errors
      = (l.filter (fun x => !(x.1 == ""))).length ∧
    (calculate_all l duration).duration_seconds = duration := by
  have hne2 : l.isEmpty = false := by
    cases l with
    | nil => exact absurd rfl hne
    | cons a t => rfl
  refine ⟨?_, ?_, ?_, ?_, ?_⟩ <;>
    rw [calculate_all, if_neg (by simp [hne2])] <;>
    simp [batch_loop_spec, filter_guest_split]

/-- Witness for `calculate_all_partial_failure`: three customers, the second
one failing — two processed, one error, duration reported. -/
theorem calculate_all_partial_failure_witness :
    (calculate_all [("c1", Except.ok ()), ("c2", Except.error "boom"),
        ("c3", Except.ok ())] 5).customers = 2 ∧
    (calculate_all [("c1", Except.ok ()), ("c2", Except.error "boom"),
        ("c3", Except.ok ())] 5).errors = 1 ∧
    (calculate_all [("c1", Except.ok ()), ("c2", Except.error "boom"),
        ("c3", Except.ok ())] 5).duration_seconds = 5 := by
  have h := calculate_all_partial_failure
    [("c1", Except.ok ()), ("c2", Except.error "boom"), ("c3", Except.ok ())] 5
    (by simp)
  exact ⟨h.2.1.trans (by decide), h.2.2.1.trans (by decide), h.2.2.2.2⟩

/-! ### Discount brackets — `DiscountMetricsCalculator.calc_discount_brackets`

The SQL computes `discount_pct = 100 * (amount_before_discount - amount) /
amount_before_discount` (0 when `amount_before_discount` is not positive) and
buckets it with a CASE chain of upper bounds. -/

/-- The `discount_pct` expression of the `discount_data` CTE. -/
def discount_pct (amount amount_before_discount : ℚ) : ℚ :=
  if amount_before_discount > 0 then
    100 * (amount_before_discount - amount) / amount_before_discount
  else 0

/-- The `discount_bracket` CASE chain. -/
def discount_bracket (pct : ℚ) : String :=
  if pct = 0 then "0% (без скидки)"
  else if pct ≤ 5 then "1-5%"
  else if pct ≤ 10 then "6-10%"
  else if pct ≤ 15 then "11-15%"
  else if pct ≤ 20 then "16-20%"
  else if pct ≤ 30 then "21-30%"
  else if pct ≤ 50 then "31-50%"
  else "50%+"

/-- C9: the transaction with amount 90 and amount_before_discount 100 has
discount_pct 10 and lands in the "6-10%" bracket; in general pct 0 maps to the
no-discount bucket, (0,5] to "1-5%", (5,10] to "6-10%", (10,15] to "11-15%",
(15,20] to "16-20%", (20,30] to "21-30%", (30,50] to "31-50%" and values above
50 to "50%+". -/
theorem discount_bracket_spec :
    discount_pct 90 100 = 10 ∧
    discount_bracket (discount_pct 90 100) = "6-10%" ∧
    ∀ q : ℚ,
      (q = 0 → discount_bracket q = "0% (без скидки)") ∧
      (0 < q → q ≤ 5 → discount_bracket q = "1-5%") ∧
      (5 < q → q ≤ 10 → discount_bracket q = "6-10%") ∧
      (10 < q → q ≤ 15 → discount_bracket q = "11-15%") ∧
      (15 < q → q ≤ 20 → discount_bracket q = "16-20%") ∧
      (20 < q → q ≤ 30 → discount_bracket q = "21-30%") ∧
      (30 < q → q ≤ 50 → discount_bracket q = "31-50%") ∧
      (50 < q → discount_bracket q = "50%+") := by
  refine ⟨by norm_num [discount_pct], by norm_num [discount_pct, discount_bracket], ?_⟩
  intro q
  refine ⟨?_, ?_, ?_, ?_, ?_, ?_, ?_, ?_⟩ <;> intros <;>
    unfold discount_bracket <;> split_ifs <;> first | rfl | linarith

/-- Witness for `discount_bracket_spec` at pct = 10. -/
theorem discount_bracket_spec_witness : discount_bracket 10 = "6-10%" :=
  (discount_bracket_spec.2.2 10).2.2.1 (by norm_num) (by norm_num)

/-! ### Product ABC — `ProductMetricsCalculator.calc_product_abc`

Product rows are (product id, revenue) pairs, one per product (`GROUP BY
p.id`).  `SUM(revenue) OVER (ORDER BY revenue DESC)` uses SQL's default RANGE
frame, which includes all peer rows of equal revenue, so the running sum at a
row equals the total revenue of the rows whose revenue is ≥ this row's. -/

/-- `SUM(revenue) OVER ()`: the total revenue of all product rows. -/
def total_revenue_abc (l : List (String × ℚ)) : ℚ := (l.map Prod.snd).sum

/-- `SUM(revenue) OVER (ORDER BY revenue DESC)` evaluated at a row with
revenue `r`. -/
def cumulative_revenue (l : List (String × ℚ)) (r : ℚ) : ℚ :=
  ((l.filter (fun q => decide (r ≤ q.2))).map Prod.snd).sum

/-- The CASE expression assigning the ABC class. -/
def abc_class (cum total : ℚ) : String :=
  if cum ≤ total * 0.8 then "A"
  else if cum ≤ total * 0.95 then "B"
  else "C"

/-- `calc_product_abc`: each row with its revenue and ABC class. -/
def calc_product_abc (l : List (String × ℚ)) : List (String × ℚ × String) :=
  l.map (fun p => (p.1, p.2, abc_class (cumulative_revenue l p.2) (total_revenue_abc l)))

/-- The rows assigned to class `c` (the `summary` grouping). -/
def abc_filter (l : List (String × ℚ)) (c : String) : List (String × ℚ) :=
  l.filter (fun p => abc_class (cumulative_revenue l p.2) (total_revenue_abc l) == c)

/-- `revenue_by_class`: revenue accumulated by one class. -/
def class_revenue (l : List (String × ℚ)) (c : String) : ℚ :=
  ((abc_filter l c).map Prod.snd).sum

lemma abc_class_exactly_one (cum total : ℚ) :
    (abc_class cum total = "A" ∧ abc_class cum total ≠ "B" ∧ abc_class cum total ≠ "C") ∨
    (abc_class cum total ≠ "A" ∧ abc_class cum total = "B" ∧ abc_class cum total ≠ "C") ∨
    (abc_class cum total ≠ "A" ∧ abc_class cum total ≠ "B" ∧ abc_class cum total = "C") := by
  unfold abc_class
  split_ifs <;> simp

lemma abc_class_A_iff (cum total : ℚ) :
    abc_class cum total = "A" ↔ cum ≤ total * 0.8 := by
  unfold abc_class
  split_ifs with h1 h2 <;> simp [h1]

lemma abc_class_B_iff (cum total : ℚ) :
    abc_class cum total = "B" ↔ (¬cum ≤ total * 0.8 ∧ cum ≤ total * 0.95) := by
  unfold abc_class
  split_ifs with h1 h2
  · simp [h1]
  · simp [h1, h2]
  · simp [h1, h2]

lemma three_way_filter_length (l : List (String × ℚ)) (f : String × ℚ → String)
    (h : ∀ x ∈ l, f x = "A" ∨ f x = "B" ∨ f x = "C") :
    (l.filter (fun x => f x == "A")).length + (l.filter (fun x => f x == "B")).length +
      (l.filter (fun x => f x == "C")).length = l.length := by
  induction l with
  | nil => simp
  | cons a t ih =>
    have iht := ih (fun x hx => h x (List.mem_cons_of_mem a hx))
    rcases h a (List.mem_cons_self a t) with h1 | h1 | h1 <;>
      simp [List.filter_cons, h1] <;> omega

lemma sum_filter_le_of_imp (l : List (String × ℚ)) (p q : String × ℚ → Bool)
    (himp : ∀ x ∈ l, p x = true → q x = true) (hnn : ∀ x ∈ l, 0 ≤ x.2) :
    ((l.filter p).map Prod.snd).sum ≤ ((l.filter q).map Prod.snd).sum := by
  induction l with
  | nil => simp
  | cons a t ih =>
    have ihs := ih (fun x hx => himp x (List.mem_cons_of_mem a hx))
      (fun x hx => hnn x (List.mem_cons_of_mem a hx))
    by_cases hp : p a = true
    · have hq := himp a (List.mem_cons_self a t) hp
      rw [List.filter_cons, List.filter_cons, if_pos hp, if_pos hq]
      simp only [List.map_cons, List.sum_cons]
      linarith
    · by_cases hq : q a = true
      · have ha := hnn a (List.mem_cons_self a t)
        rw [List.filter_cons, List.filter_cons, if_neg hp, if_pos hq]
        simp only [List.map_cons, List.sum_cons]
        linarith
      · rw [List.filter_cons, List.filter_cons, if_neg hp, if_neg hq]
        exact ihs

lemma exists_min_snd (l : List (String × ℚ)) (h : l ≠ []) :
    ∃ p ∈ l, ∀ q ∈ l, p.2 ≤ q.2 := by
  induction l with
  | nil => exact absurd rfl h
  | cons a t ih =>
    cases t with
    | nil =>
      refine ⟨a, List.mem_cons_self a [], ?_⟩
      intro q hq
      rcases List.mem_cons.mp hq with rfl | hq
      · exact le_refl _
      · simp at hq
    | cons b u =>
      obtain ⟨p, hp, hmin⟩ := ih (by simp)
      by_cases hle : a.2 ≤ p.2
      · refine ⟨a, List.mem_cons_self a _, ?_⟩
        intro q hq
        rcases List.mem_cons.mp hq with rfl | hq
        · exact le_refl _
        · exact hle.trans (hmin q hq)
      · refine ⟨p, List.mem_cons_of_mem a hp, ?_⟩
        intro q hq
        rcases List.mem_cons.mp hq with rfl | hq
        · linarith
        · exact hmin q hq

lemma total_revenue_abc_nonneg (l : List (String × ℚ)) (hnn : ∀ p ∈ l, 0 ≤ p.2) :
    0 ≤ total_revenue_abc l := by
  apply List.sum_nonneg
  intro x hx
  obtain ⟨p, hp, rfl⟩ := List.mem_map.mp hx
  exact hnn p hp

lemma class_revenue_A_le (l : List (String × ℚ)) (hnn : ∀ p ∈ l, 0 ≤ p.2) :
    class_revenue l "A" ≤ total_revenue_abc l * 0.8 := by
  by_cases hA : abc_filter l "A" = []
  · rw [class_revenue, hA]
    simpa using mul_nonneg (total_revenue_abc_nonneg l hnn) (by norm_num)
  · obtain ⟨p₀, hp₀mem, hp₀min⟩ := exists_min_snd (abc_filter l "A") hA
    obtain ⟨hp₀l, hp₀cond⟩ := List.mem_filter.mp hp₀mem
    have hclassA : abc_class (cumulative_revenue l p₀.2) (total_revenue_abc l) = "A" := by
      simpa using hp₀cond
    have hcum : cumulative_revenue l p₀.2 ≤ total_revenue_abc l * 0.8 :=
      (abc_class_A_iff _ _).mp hclassA
    have hsub : class_revenue l "A" ≤ cumulative_revenue l p₀.2 := by
      apply sum_filter_le_of_imp
      · intro x hx hcl
        have hxA : x ∈ abc_filter l "A" := List.mem_filter.mpr ⟨hx, hcl⟩
        simpa using hp₀min x hxA
      · exact hnn
    linarith

/-- C7: for every non-empty product set with non-negative revenues the ABC
classification assigns each product exactly one of the classes A, B, C (A iff
cumulative revenue ≤ 80% of total, B iff in (80%, 95%]); the three classes
partition the product set; and class A's accumulated revenue is at most 80% of
total plus one product's revenue (indeed at most 80% of total outright, and in
share form when the total is positive). -/
theorem product_abc_partition (l : List (String × ℚ)) (hne : l ≠ [])
    (hnn : ∀ p ∈ l, 0 ≤ p.2) :
    (∀ p ∈ calc_product_abc l,
      (p.2.2 = "A" ∧ p.2.2 ≠ "B" ∧ p.2.2 ≠ "C") ∨
      (p.2.2 ≠ "A" ∧ p.2.2 = "B" ∧ p.2.2 ≠ "C") ∨
      (p.2.2 ≠ "A" ∧ p.2.2 ≠ "B" ∧ p.2.2 = "C")) ∧
    (∀ p ∈ l,
      (abc_class (cumulative_revenue l p.2) (total_revenue_abc l) = "A" ↔
        cumulative_revenue l p.2 ≤ total_revenue_abc l * 0.8) ∧
      (abc_class (cumulative_revenue l p.2) (total_revenue_abc l) = "B" ↔
        (¬cumulative_revenue l p.2 ≤ total_revenue_abc l * 0.8 ∧
          cumulative_revenue l p.2 ≤ total_revenue_abc l * 0.95))) ∧
    (abc_filter l "A").length + (abc_filter l "B").length +
      (abc_filter l "C").length = l.length ∧
    class_revenue l "A" ≤ total_revenue_abc l * 0.8 ∧
    (∃ p ∈ l, class_revenue l "A" ≤ total_revenue_abc l * 0.8 + p.2 ∧
      (0 < total_revenue_abc l →
        class_revenue l "A" / total_revenue_abc l ≤
          0.8 + p.2 / total_revenue_abc l)) := by
  have hAle := class_revenue_A_le l hnn
  refine ⟨?_, ?_, ?_, hAle, ?_⟩
  · intro p hp
    obtain ⟨q, hq, rfl⟩ := List.mem_map.mp hp
    exact abc_class_exactly_one _ _
  · intro p hp
    exact ⟨abc_class_A_iff _ _, abc_class_B_iff _ _⟩
  · exact three_way_filter_length l _ (fun x _ => by
      rcases abc_class_exactly_one (cumulative_revenue l x.2) (total_revenue_abc l)
        with ⟨h, _⟩ | ⟨_, h, _⟩ | ⟨_, _, h⟩
      · exact Or.inl h
      · exact Or.inr (Or.inl h)
      · exact Or.inr (Or.inr h))
  · cases l with
    | nil => exact absurd rfl hne
    | cons a t =>
      refine ⟨a, List.mem_cons_self a t, ?_, ?_⟩
      · have := hnn a (List.mem_cons_self a t)
        linarith
      · intro hT
        rw [div_le_iff₀ hT, add_mul, div_mul_cancel₀ _ (ne_of_gt hT)]
        have := hnn a (List.mem_cons_self a t)
        nlinarith

/-- Witness for `product_abc_partition` on products x:50, y:30, z:20 — three
rows, classes partition all three, class A revenue within the bound. -/
theorem product_abc_partition_witness :
    (abc_filter [("x", 50), ("y", 30), ("z", 20)] "A").length +
      (abc_filter [("x", 50), ("y", 30), ("z", 20)] "B").length +
      (abc_filter [("x", 50), ("y", 30), ("z", 20)] "C").length = 3 ∧
    class_revenue [("x", 50), ("y", 30), ("z", 20)] "A" ≤
      total_revenue_abc [("x", 50), ("y", 30), ("z", 20)] * 0.8 := by
  have h := product_abc_partition [("x", 50), ("y", 30), ("z", 20)] (by simp)
    (by intro p hp; fin_cases hp <;> norm_num)
  exact ⟨h.2.2.1, h.2.2.2.1⟩

end Metrics
